import Mathlib

/-
  Shallow embedding of the session-guard / token-lifecycle logic of the
  bizconnect-admin-dashboard repository.

  Embedded source files:
  - src/services/tokenService.ts       (isTokenExpired, getTimeUntilExpiry,
                                        storeTokens, clearTokens)
  - src/services/authService.ts        (login, refreshToken)
  - token-manager hook                 (performTokenRefresh, scheduleTokenRefresh,
                                        timer-fire callback)
  - auth store (zustand)               (logout, mock refreshToken action)
  - httpClient response interceptor    (401/403 refresh-and-replay logic)

  Modelling conventions:
  - localStorage keys accessToken / refreshToken / tokenExpiry are a record of
    Options; the expiry string is modelled as the parsed millisecond timestamp
    (the code writes it with toString and reads it back with parseInt).
  - Date.now() is an explicit Nat millisecond parameter.
  - Network responses are explicit parameters (RefreshResponse, replay status):
    the code is single-threaded and awaits one response per call.
  - JS falsiness of the empty string on getItem results is modelled explicitly.
  - isAuthenticated is a state field read at invocation time.
-/

/-- The three localStorage keys holding the persisted credential triple. -/
structure Storage where
  accessToken : Option String
  refreshToken : Option String
  tokenExpiry : Option Nat
deriving Repr, DecidableEq

def Storage.empty : Storage := ⟨none, none, none⟩

/-- JS: `const rt = localStorage.getItem('refreshToken'); if (!rt) ...` —
the empty string is falsy, so it behaves like an absent token. -/
def getStoredRefreshToken (st : Storage) : Option String :=
  match st.refreshToken with
  | none => none
  | some rt => if rt = "" then none else some rt

/-- tokenService.isTokenExpired: true when no expiry stored or Date.now() ≥ parseInt(expiry). -/
def isTokenExpired (st : Storage) (now : Nat) : Bool :=
  match st.tokenExpiry with
  | none => true
  | some e => e ≤ now

/-- tokenService.getTimeUntilExpiry: Math.max(0, parseInt(expiry) - Date.now());
Nat subtraction is exactly the max-0 clamp. Returns 0 when no expiry stored. -/
def getTimeUntilExpiry (st : Storage) (now : Nat) : Nat :=
  match st.tokenExpiry with
  | none => 0
  | some e => e - now

/-- tokenService.storeTokens: writes all three keys; expiry = Date.now() + expiresIn*1000. -/
def storeTokens (a r : String) (expiresIn : Nat) (now : Nat) (_st : Storage) : Storage :=
  ⟨some a, some r, some (now + expiresIn * 1000)⟩

/-- tokenService.clearTokens: removes all three keys. -/
def clearTokens (_st : Storage) : Storage := ⟨none, none, none⟩

/-- Outcome of the POST /auth/tokens/refresh network call, as observed by a caller:
a 2xx body (whose accessToken field may be empty, i.e. falsy), an HTTP error
with a status, or a network-level error with no response status. -/
inductive RefreshResponse where
  | ok (accessToken refreshToken : String) (expiresIn : Nat)
  | httpError (status : Nat)
  | networkError
deriving Repr, DecidableEq

/-- State touched by the token-manager hook and the auth store. `storeToken` is
the zustand store's `token` field; `sessionExpiredToasts` counts the
session-expired toast emissions; `refreshNetworkCalls` counts POSTs to the
refresh endpoint; `timer` is the armed proactive-refresh timeout delay. -/
structure GuardState where
  storage : Storage
  isRefreshing : Bool
  isAuthenticated : Bool
  storeToken : Option String
  sessionExpiredToasts : Nat
  refreshNetworkCalls : Nat
  timer : Option Nat
deriving Repr, DecidableEq

/-- auth store logout action: removes the three localStorage keys and resets the
store state (token := null, isAuthenticated := false). -/
def logout (s : GuardState) : GuardState :=
  { s with storage := clearTokens s.storage
         , isAuthenticated := false
         , storeToken := none }

/-- How far a performTokenRefresh invocation got before its first suspension
point: returned false at the single-flight guard, completed synchronously on the
missing-refresh-token error path, or issued the network call and is awaiting it. -/
inductive StartOutcome where
  | busy
  | noToken
  | inFlight
deriving Repr, DecidableEq

/-- performTokenRefresh, first phase (up to the await of refreshAccessToken):
if isRefreshingRef is set, return false at once; set the flag; read the refresh
token; a missing token throws an Error that carries no response status, so the
catch falls through the 401/403 check and returns false (finally resets the
flag); otherwise issue the network call and suspend. -/
def refreshStart (s : GuardState) : StartOutcome × GuardState :=
  if s.isRefreshing then (.busy, s)
  else
    let s1 : GuardState := { s with isRefreshing := true }
    match getStoredRefreshToken s1.storage with
    | none => (.noToken, { s1 with isRefreshing := false })
    | some _ =>
        (.inFlight, { s1 with refreshNetworkCalls := s1.refreshNetworkCalls + 1 })

/-- performTokenRefresh, second phase (resumption after the network response):
on success storeTokens the new triple and return true; on a 401/403 response
emit the session-expired toast, call logout(), return false; on any other
failure just return false; the finally block resets isRefreshingRef. -/
def refreshResume (resp : RefreshResponse) (now : Nat) (s : GuardState) :
    Bool × GuardState :=
  let out : Bool × GuardState :=
    match resp with
    | .ok a r e => (true, { s with storage := storeTokens a r e now s.storage })
    | .httpError status =>
        if status = 401 ∨ status = 403 then
          (false, logout { s with sessionExpiredToasts := s.sessionExpiredToasts + 1 })
        else (false, s)
    | .networkError => (false, s)
  (out.1, { out.2 with isRefreshing := false })

/-- A full performTokenRefresh call with its network response supplied. -/
def performTokenRefresh (resp : RefreshResponse) (now : Nat) (s : GuardState) :
    Bool × GuardState :=
  match refreshStart s with
  | (.busy, s1) => (false, s1)
  | (.noToken, s1) => (false, s1)
  | (.inFlight, s1) => refreshResume resp now s1

def TOKEN_REFRESH_BUFFER : Nat := 2 * 60 * 1000

/-- scheduleTokenRefresh: clear any armed timeout; if not authenticated, stop;
otherwise arm a one-shot timeout for Math.max(0, getTimeUntilExpiry() - buffer)
milliseconds (Nat subtraction is the clamp). -/
def scheduleTokenRefresh (now : Nat) (s : GuardState) : GuardState :=
  let s1 : GuardState := { s with timer := none }
  if s1.isAuthenticated then
    { s1 with timer := some (getTimeUntilExpiry s1.storage now - TOKEN_REFRESH_BUFFER) }
  else s1

/-- The armed timeout's callback: await performTokenRefresh(), then call
scheduleTokenRefresh() unconditionally (whose isAuthenticated guard decides
whether a new timer is actually armed). -/
def timerFire (resp : RefreshResponse) (nowResp nowSched : Nat) (s : GuardState) :
    GuardState :=
  let s0 : GuardState := { s with timer := none }
  let r := performTokenRefresh resp nowResp s0
  scheduleTokenRefresh nowSched r.2

/-- Outcome of the auth store's refreshToken action (an async action that either
resolves or throws). -/
inductive StoreRefreshOutcome where
  | refreshed
  | threw
deriving Repr, DecidableEq

/-- auth store refreshToken action (mock implementation): `if (!refreshToken)`
— an absent (or empty, i.e. falsy) stored refresh token — call get().logout()
and throw; otherwise fabricate 'mock-jwt-token-' + Date.now(), write accessToken
and tokenExpiry (Date.now() + 3600*1000) to localStorage — leaving the
refreshToken key untouched — and set the store token. No network call is made. -/
def authStoreRefreshToken (now : Nat) (s : GuardState) :
    StoreRefreshOutcome × GuardState :=
  match getStoredRefreshToken s.storage with
  | none => (.threw, logout s)
  | some _ =>
      let newToken := "mock-jwt-token-" ++ toString now
      (.refreshed,
       { s with storage := { s.storage with accessToken := some newToken
                                          , tokenExpiry := some (now + 3600 * 1000) }
              , storeToken := some newToken })

/-- authService.refreshToken: result is (returned value, storage after,
count of refresh network calls issued). A missing refresh token throws; the
catch clears all three keys and returns null. A response whose accessToken is
falsy returns null without writing. Any thrown error (HTTP or network) is
caught: clear all three keys, return null. -/
def authServiceRefreshToken (resp : RefreshResponse) (now : Nat) (st : Storage) :
    Option String × Storage × Nat :=
  match getStoredRefreshToken st with
  | none => (none, clearTokens st, 0)
  | some _ =>
      match resp with
      | .ok a r e =>
          if a = "" then (none, st, 1)
          else (some a, storeTokens a r e now st, 1)
      | .httpError _ => (none, clearTokens st, 1)
      | .networkError => (none, clearTokens st, 1)

/-- Shape of the POST /auth/login response: a 2xx body that may or may not carry
a tokens field, or a thrown error. -/
inductive LoginResp where
  | ok (hasTokens : Bool) (a r : String) (e : Nat)
  | err
deriving Repr, DecidableEq

/-- authService.login, restricted to its storage effect: on success with a
tokens field, write all three keys from the response; otherwise (no tokens
field, or any error caught and rethrown as Error) write nothing. -/
def authLogin (resp : LoginResp) (now : Nat) (st : Storage) : Storage :=
  match resp with
  | .ok true a r e => storeTokens a r e now st
  | .ok false _ _ _ => st
  | .err => st

/-- An axios request config as the response interceptor sees it: url, the
_retry flag, and the Authorization header. -/
structure Req where
  url : String
  retry : Bool
  authHeader : Option String
deriving Repr, DecidableEq

/-- Substring test on character lists: the pattern occurs at some position. -/
def listHasInfix (pat : List Char) : List Char → Bool
  | [] => pat.isEmpty
  | c :: rest => pat.isPrefixOf (c :: rest) || listHasInfix pat rest

/-- JS `url.includes("/auth/")`. -/
def urlIncludesAuth (u : String) : Bool := listHasInfix "/auth/".toList u.toList

/-- Observable effects of the response interceptor: storage, the custom
auth:session-expired events dispatched, refresh-endpoint calls issued, and the
Authorization header of each replayed request in order. -/
structure InterceptState where
  storage : Storage
  sessionExpiredEvents : Nat
  refreshCalls : Nat
  replayAuthHeaders : List (Option String)
deriving Repr, DecidableEq

/-- Result of the response-error interceptor: the promise resolves with the
replayed request's response, or rejects with an error of the given status. -/
inductive InterceptResult where
  | resolved (req : Req)
  | rejected (status : Nat)
deriving Repr, DecidableEq

/-- httpClient response interceptor, error branch. On 401/403 with _retry unset:
set _retry, reject immediately for /auth/ urls, otherwise read the refresh
token (absent ⇒ throw ⇒ catch: clear keys, dispatch session-expired, reject the
original error); issue one refresh call; if it throws, same catch; if its body
has a falsy accessToken, fall through and reject the original error with no
cleanup; on success write all three keys, set the Authorization header to the
new token, and return httpClient(originalRequest) WITHOUT awaiting it, so a
rejection of the replay bypasses the catch and propagates. The replay re-enters
this interceptor (fuel decreases); its _retry flag is set, so a second 401
rejects at the guard. Every other status rejects untouched. -/
def handleResponseError :
    Nat → Req → Nat → RefreshResponse → Option Nat → Nat → InterceptState →
    InterceptResult × InterceptState
  | 0, _, status, _, _, _, st => (.rejected status, st)
  | fuel + 1, req, status, refreshResp, replayStatus, now, st =>
    if (status = 401 ∨ status = 403) ∧ req.retry = false then
      let req1 : Req := { req with retry := true }
      if urlIncludesAuth req1.url then (.rejected status, st)
      else
        match getStoredRefreshToken st.storage with
        | none =>
            (.rejected status,
             { st with storage := clearTokens st.storage
                     , sessionExpiredEvents := st.sessionExpiredEvents + 1 })
        | some _ =>
            let st1 : InterceptState := { st with refreshCalls := st.refreshCalls + 1 }
            match refreshResp with
            | .ok a r e =>
                if a = "" then (.rejected status, st1)
                else
                  let st2 : InterceptState :=
                    { st1 with storage := storeTokens a r e now st1.storage }
                  let req2 : Req := { req1 with authHeader := some ("Bearer " ++ a) }
                  let st3 : InterceptState :=
                    { st2 with replayAuthHeaders := st2.replayAuthHeaders ++ [req2.authHeader] }
                  match replayStatus with
                  | none => (.resolved req2, st3)
                  | some s2 => handleResponseError fuel req2 s2 refreshResp none now st3
            | _ =>
                (.rejected status,
                 { st1 with storage := clearTokens st1.storage
                          , sessionExpiredEvents := st1.sessionExpiredEvents + 1 })
    else (.rejected status, st)

/-- A concrete authenticated guard state with a stored credential triple, used
by several witnesses and counterexamples. -/
def exGuardState : GuardState :=
  ⟨⟨some "a0", some "r0", some 99⟩, false, true, some "a0", 0, 0, none⟩

/-- C9: immediately after storeTokens(a, r, E) at time t with E > 0, isTokenExpired
is false; at any time tp it is true exactly when tp has reached t + E seconds
(t + E*1000 ms — the code tests Date.now() ≥ expiry, so the boundary instant
itself counts as expired); and it is true whenever no expiry is stored. -/
theorem c9_isExpired_after_store (a r : String) (E t tp : Nat) (st : Storage)
    (hE : 0 < E) :
    isTokenExpired (storeTokens a r E t st) t = false
    ∧ (isTokenExpired (storeTokens a r E t st) tp = true ↔ t + E * 1000 ≤ tp)
    ∧ (∀ s : Storage, s.tokenExpiry = none → isTokenExpired s tp = true) := by
  refine ⟨?_, ?_, ?_⟩
  · simp [isTokenExpired, storeTokens]
    omega
  · simp [isTokenExpired, storeTokens]
  · intro s hs
    simp [isTokenExpired, hs]

theorem c9_witness :
    0 < 10
    ∧ isTokenExpired (storeTokens "a" "r" 10 100 Storage.empty) 100 = false
    ∧ (isTokenExpired (storeTokens "a" "r" 10 100 Storage.empty) 10100 = true
        ↔ 100 + 10 * 1000 ≤ 10100) :=
  ⟨by decide,
   (c9_isExpired_after_store "a" "r" 10 100 10100 Storage.empty (by decide)).1,
   (c9_isExpired_after_store "a" "r" 10 100 10100 Storage.empty (by decide)).2.1⟩

/-- C10: the auth store's refreshToken action issues no network call; with a
refresh token present in storage (non-falsy under the JS `if (!refreshToken)`
check) it writes accessToken = "mock-jwt-token-" ++ Date.now() and
tokenExpiry = now + 3600*1000 while leaving the stored refresh token unchanged;
with none present (absent or empty) it performs logout and throws. -/
theorem c10_store_refresh_mock (now : Nat) (s : GuardState) (rt : String) :
    (getStoredRefreshToken s.storage = some rt →
       (authStoreRefreshToken now s).1 = .refreshed
       ∧ (authStoreRefreshToken now s).2.storage.accessToken
           = some ("mock-jwt-token-" ++ toString now)
       ∧ (authStoreRefreshToken now s).2.storage.tokenExpiry
           = some (now + 3600 * 1000)
       ∧ (authStoreRefreshToken now s).2.storage.refreshToken
           = s.storage.refreshToken
       ∧ (authStoreRefreshToken now s).2.refreshNetworkCalls
           = s.refreshNetworkCalls)
    ∧ (getStoredRefreshToken s.storage = none →
       (authStoreRefreshToken now s).1 = .threw
       ∧ (authStoreRefreshToken now s).2 = logout s) := by
  constructor
  · intro h
    simp [authStoreRefreshToken, h]
  · intro h
    simp [authStoreRefreshToken, h]

theorem c10_witness :
    (authStoreRefreshToken 5 exGuardState).1 = StoreRefreshOutcome.refreshed
    ∧ (authStoreRefreshToken 5
        ⟨⟨some "a0", none, some 99⟩, false, true, some "a0", 0, 0, none⟩).1
      = StoreRefreshOutcome.threw
    ∧ (authStoreRefreshToken 5
        ⟨⟨some "a0", some "", some 99⟩, false, true, some "a0", 0, 0, none⟩).1
      = StoreRefreshOutcome.threw :=
  ⟨((c10_store_refresh_mock 5 exGuardState "r0").1 (by decide)).1,
   ((c10_store_refresh_mock 5
      ⟨⟨some "a0", none, some 99⟩, false, true, some "a0", 0, 0, none⟩ "r0").2
      (by decide)).1,
   ((c10_store_refresh_mock 5
      ⟨⟨some "a0", some "", some 99⟩, false, true, some "a0", 0, 0, none⟩ "r0").2
      (by decide)).1⟩

/-- C6 counterexample: performTokenRefresh with an access token but no refresh
token stored returns false yet leaves the state completely unchanged: the
credentials are not cleared, isAuthenticated stays true (no logout), no
session-expired toast is emitted — contrary to the claimed AuthFailure
treatment. (Zero network calls does hold.) -/
theorem c6_counterexample :
    (performTokenRefresh (.ok "x" "y" 1) 0
        ⟨⟨some "a0", none, some 50⟩, false, true, some "a0", 0, 0, none⟩)
      = (false, ⟨⟨some "a0", none, some 50⟩, false, true, some "a0", 0, 0, none⟩)
    ∧ (⟨⟨some "a0", none, some 50⟩, false, true, some "a0", 0, 0, none⟩
        : GuardState).storage.accessToken ≠ none
    ∧ (⟨⟨some "a0", none, some 50⟩, false, true, some "a0", 0, 0,
        none⟩ : GuardState).isAuthenticated = true := by
  decide

/-- C6 amended: with no refresh token stored (and no refresh in flight),
performTokenRefresh fails immediately with zero network calls, but the missing
token is handled as a generic error: it returns false with the state unchanged —
no credential clearing, no logout, no session-expired toast. -/
theorem c6_no_token_generic_failure (resp : RefreshResponse) (now : Nat)
    (s : GuardState) (h1 : s.isRefreshing = false)
    (h2 : getStoredRefreshToken s.storage = none) :
    performTokenRefresh resp now s = (false, s) := by
  obtain ⟨stg, ir, ia, tok, toasts, net, tim⟩ := s
  simp_all [performTokenRefresh, refreshStart]

theorem c6_witness :
    performTokenRefresh (.ok "x" "y" 1) 0
        ⟨⟨some "a0", none, some 50⟩, false, true, some "a0", 0, 0, none⟩
      = (false, ⟨⟨some "a0", none, some 50⟩, false, true, some "a0", 0, 0, none⟩) :=
  c6_no_token_generic_failure (.ok "x" "y" 1) 0
    ⟨⟨some "a0", none, some 50⟩, false, true, some "a0", 0, 0, none⟩
    (by decide) (by decide)

/-- C1 counterexample: caller A starts a refresh (one network call goes out);
caller B invokes performTokenRefresh while A is in flight and gets false
immediately with no state change and no second network call; A's in-flight call
then resolves successfully and returns true. The two callers observe different
outcomes (true vs false), refuting the shared-outcome half of the claim; the
single network call half does hold (refreshNetworkCalls ends at 1). -/
theorem c1_counterexample :
    (refreshStart exGuardState).1 = StartOutcome.inFlight
    ∧ (performTokenRefresh (.ok "a1" "r1" 3600) 7 (refreshStart exGuardState).2)
        = (false, (refreshStart exGuardState).2)
    ∧ (refreshResume (.ok "a1" "r1" 3600) 7
        (performTokenRefresh (.ok "a1" "r1" 3600) 7 (refreshStart exGuardState).2).2).1
      = true
    ∧ (refreshResume (.ok "a1" "r1" 3600) 7
        (performTokenRefresh (.ok "a1" "r1" 3600) 7
          (refreshStart exGuardState).2).2).2.refreshNetworkCalls = 1
    ∧ (true : Bool) ≠ false := by
  decide

/-- C1 amended: while a refresh is outstanding, a second performTokenRefresh
call issues no network call (state unchanged), but it does not await the
in-flight attempt: it returns false immediately, while the first caller's own
resolution can return true — so the two callers need not observe the same
outcome. -/
theorem c1_single_flight_no_shared_outcome (s : GuardState)
    (resp2 : RefreshResponse) (a r : String) (e now now2 : Nat) (rt : String)
    (h1 : s.isRefreshing = false)
    (h2 : getStoredRefreshToken s.storage = some rt) :
    (refreshStart s).1 = .inFlight
    ∧ (refreshStart s).2.refreshNetworkCalls = s.refreshNetworkCalls + 1
    ∧ performTokenRefresh resp2 now2 (refreshStart s).2 = (false, (refreshStart s).2)
    ∧ (refreshResume (.ok a r e) now (refreshStart s).2).1 = true := by
  obtain ⟨stg, ir, ia, tok, toasts, net, tim⟩ := s
  simp_all [performTokenRefresh, refreshStart, refreshResume]

theorem c1_witness :
    (refreshStart exGuardState).1 = StartOutcome.inFlight
    ∧ performTokenRefresh RefreshResponse.networkError 7 (refreshStart exGuardState).2
        = (false, (refreshStart exGuardState).2) :=
  ⟨(c1_single_flight_no_shared_outcome exGuardState .networkError "a1" "r1" 3600 0 7 "r0"
      (by decide) (by decide)).1,
   (c1_single_flight_no_shared_outcome exGuardState .networkError "a1" "r1" 3600 0 7 "r0"
      (by decide) (by decide)).2.2.1⟩

/-- C4 counterexample: a refresh goes in flight from exGuardState; logout then
clears the credential store; when the in-flight refresh resolves successfully,
its resolution calls storeTokens unconditionally and the store ends holding the
newly issued triple — the credentials do NOT remain cleared. -/
theorem c4_counterexample :
    (logout (refreshStart exGuardState).2).storage = Storage.empty
    ∧ (refreshResume (.ok "a1" "r1" 3600) 5 (logout (refreshStart exGuardState).2)).1
        = true
    ∧ (refreshResume (.ok "a1" "r1" 3600) 5
        (logout (refreshStart exGuardState).2)).2.storage
      = ⟨some "a1", some "r1", some (5 + 3600 * 1000)⟩
    ∧ (refreshResume (.ok "a1" "r1" 3600) 5
        (logout (refreshStart exGuardState).2)).2.storage ≠ Storage.empty := by
  decide

/-- C4 amended: the code has no generation check — the successful resolution of
a refresh repopulates the credential store with the newly issued triple even
when a logout cleared the store while the call was in flight. -/
theorem c4_resume_repopulates (s : GuardState) (a r : String) (e now : Nat) :
    (logout s).storage = Storage.empty
    ∧ (refreshResume (.ok a r e) now (logout s)).2.storage
        = ⟨some a, some r, some (now + e * 1000)⟩ := by
  constructor
  · simp [logout, clearTokens, Storage.empty]
  · simp [refreshResume, logout, storeTokens]

/-- C2 counterexample: authService.refreshToken (one of the claim's cited
refresh implementations), on a 500 server error with a full credential triple
stored, returns null AND clears all three stored fields — the credential triple
is not left as it was, refuting the claim for that operation. -/
theorem c2_counterexample :
    (authServiceRefreshToken (.httpError 500) 0
        ⟨some "a0", some "r0", some 99⟩).2.1 = Storage.empty
    ∧ (⟨some "a0", some "r0", some 99⟩ : Storage) ≠ Storage.empty := by
  decide

/-- C2 amended: the token-manager hook's performTokenRefresh does behave as
claimed — on a non-401/403 HTTP error or a network error it returns false,
leaves the stored triple untouched, emits no session-expired toast and does not
log out; but authService.refreshToken clears the stored credential triple on
any such failure. -/
theorem c2_transient_failure_split (s : GuardState) (stg : Storage)
    (now status : Nat) (rt rt2 : String)
    (h1 : s.isRefreshing = false)
    (h2 : getStoredRefreshToken s.storage = some rt)
    (h3 : status ≠ 401) (h4 : status ≠ 403)
    (h5 : getStoredRefreshToken stg = some rt2) :
    ((performTokenRefresh (.httpError status) now s).1 = false
     ∧ (performTokenRefresh (.httpError status) now s).2.storage = s.storage
     ∧ (performTokenRefresh (.httpError status) now s).2.isAuthenticated
         = s.isAuthenticated
     ∧ (performTokenRefresh (.httpError status) now s).2.sessionExpiredToasts
         = s.sessionExpiredToasts
     ∧ (performTokenRefresh RefreshResponse.networkError now s).1 = false
     ∧ (performTokenRefresh RefreshResponse.networkError now s).2.storage
         = s.storage)
    ∧ (authServiceRefreshToken (.httpError status) now stg).2.1 = Storage.empty
    ∧ (authServiceRefreshToken RefreshResponse.networkError now stg).2.1
        = Storage.empty := by
  obtain ⟨stg1, ir, ia, tok, toasts, net, tim⟩ := s
  simp_all [performTokenRefresh, refreshStart, refreshResume,
    authServiceRefreshToken, clearTokens, Storage.empty]

theorem c2_witness :
    (performTokenRefresh (.httpError 500) 3 exGuardState).1 = false
    ∧ (performTokenRefresh (.httpError 500) 3 exGuardState).2.storage
        = exGuardState.storage
    ∧ (authServiceRefreshToken (.httpError 500) 3
        ⟨some "a0", some "r0", some 99⟩).2.1 = Storage.empty :=
  ⟨(c2_transient_failure_split exGuardState ⟨some "a0", some "r0", some 99⟩ 3 500
      "r0" "r0" (by decide) (by decide) (by decide) (by decide) (by decide)).1.1,
   (c2_transient_failure_split exGuardState ⟨some "a0", some "r0", some 99⟩ 3 500
      "r0" "r0" (by decide) (by decide) (by decide) (by decide) (by decide)).1.2.1,
   (c2_transient_failure_split exGuardState ⟨some "a0", some "r0", some 99⟩ 3 500
      "r0" "r0" (by decide) (by decide) (by decide) (by decide) (by decide)).2.1⟩

/-- C5: when the armed proactive timer fires and the refresh endpoint answers
403, the stored credentials are cleared (logout), exactly one session-expired
toast is emitted, and no new proactive timer is armed afterward (the
unconditional reschedule call finds isAuthenticated false and stops). -/
theorem c5_refresh_403_clears_and_stops (s : GuardState) (nowR nowS : Nat)
    (rt : String) (h1 : s.isRefreshing = false)
    (h2 : getStoredRefreshToken s.storage = some rt) :
    (timerFire (.httpError 403) nowR nowS s).storage = Storage.empty
    ∧ (timerFire (.httpError 403) nowR nowS s).sessionExpiredToasts
        = s.sessionExpiredToasts + 1
    ∧ (timerFire (.httpError 403) nowR nowS s).timer = none := by
  obtain ⟨stg, ir, ia, tok, toasts, net, tim⟩ := s
  simp_all [timerFire, performTokenRefresh, refreshStart, refreshResume,
    scheduleTokenRefresh, logout, clearTokens, Storage.empty]

theorem c5_witness :
    (timerFire (.httpError 403) 7 8 exGuardState).storage = Storage.empty
    ∧ (timerFire (.httpError 403) 7 8 exGuardState).sessionExpiredToasts = 0 + 1
    ∧ (timerFire (.httpError 403) 7 8 exGuardState).timer = none :=
  c5_refresh_403_clears_and_stops exGuardState 7 8 "r0" (by decide) (by decide)

/-- C8: scheduleTokenRefresh arms a one-shot timer for
max(0, getTimeUntilExpiry() - 2 minutes) — Nat subtraction being the clamp;
when the timer fires it runs performTokenRefresh; on success the unconditional
reschedule re-arms the timer from the newly stored expiry; on a 401/403
authFailure the logout makes the reschedule stop (no timer armed). -/
theorem c8_schedule_and_fire (s : GuardState) (now now2 : Nat) (a r : String)
    (e status : Nat) (rt : String)
    (hauth : s.isAuthenticated = true)
    (h1 : s.isRefreshing = false)
    (h2 : getStoredRefreshToken s.storage = some rt)
    (hst : status = 401 ∨ status = 403) :
    (scheduleTokenRefresh now s).timer
        = some (getTimeUntilExpiry s.storage now - TOKEN_REFRESH_BUFFER)
    ∧ (timerFire (.ok a r e) now2 now2 s).timer
        = some (getTimeUntilExpiry ⟨some a, some r, some (now2 + e * 1000)⟩ now2
                  - TOKEN_REFRESH_BUFFER)
    ∧ (timerFire (.httpError status) now2 now2 s).timer = none := by
  obtain ⟨stg, ir, ia, tok, toasts, net, tim⟩ := s
  refine ⟨?_, ?_, ?_⟩
  · simp_all [scheduleTokenRefresh]
  · simp_all [timerFire, performTokenRefresh, refreshStart, refreshResume,
      scheduleTokenRefresh, storeTokens]
  · rcases hst with h | h <;>
      simp_all [timerFire, performTokenRefresh, refreshStart, refreshResume,
        scheduleTokenRefresh, logout]

theorem c8_witness :
    (scheduleTokenRefresh 7 exGuardState).timer
        = some (getTimeUntilExpiry exGuardState.storage 7 - TOKEN_REFRESH_BUFFER)
    ∧ (timerFire (.ok "a1" "r1" 3600) 9 9 exGuardState).timer
        = some (getTimeUntilExpiry ⟨some "a1", some "r1", some (9 + 3600 * 1000)⟩ 9
                  - TOKEN_REFRESH_BUFFER)
    ∧ (timerFire (.httpError 401) 9 9 exGuardState).timer = none :=
  c8_schedule_and_fire exGuardState 7 9 "a1" "r1" 3600 401 "r0"
    (by decide) (by decide) (by decide) (Or.inl rfl)

/-- C7 counterexample: the auth store's refreshToken action, run on a state
holding the triple (a0, r0, 99), changes the stored access token and expiry but
leaves the stored refresh token at its old value r0 — a newly issued access
token and expiry paired with a stale refresh token, which the claim says no
operation produces. -/
theorem c7_counterexample :
    (authStoreRefreshToken 5 exGuardState).2.storage.accessToken
        ≠ exGuardState.storage.accessToken
    ∧ (authStoreRefreshToken 5 exGuardState).2.storage.tokenExpiry
        ≠ exGuardState.storage.tokenExpiry
    ∧ (authStoreRefreshToken 5 exGuardState).2.storage.refreshToken
        = exGuardState.storage.refreshToken := by
  decide

/-- C7 amended: every modelled writer of the persisted credential state writes
the three fields together or not at all — storeTokens and a login carrying
tokens write all three from one response, clearTokens clears all three, a login
without tokens or with an error writes nothing, authService.refreshToken writes
all three on success and clears all three on failure — EXCEPT the auth store's
mock refreshToken action, which, when a refresh token is present (non-falsy),
writes a fresh access token and expiry while leaving the stored refresh token
unchanged; when none is present its logout path clears all three. -/
theorem c7_atomic_writes_except_mock (a r : String) (e now status : Nat)
    (st : Storage) (s : GuardState) (rt : String) :
    storeTokens a r e now st = ⟨some a, some r, some (now + e * 1000)⟩
    ∧ clearTokens st = Storage.empty
    ∧ authLogin (.ok true a r e) now st = ⟨some a, some r, some (now + e * 1000)⟩
    ∧ authLogin (.ok false a r e) now st = st
    ∧ authLogin .err now st = st
    ∧ (a ≠ "" → getStoredRefreshToken st = some rt →
        (authServiceRefreshToken (.ok a r e) now st).2.1
          = ⟨some a, some r, some (now + e * 1000)⟩)
    ∧ (getStoredRefreshToken st = some rt →
        (authServiceRefreshToken (.httpError status) now st).2.1 = Storage.empty)
    ∧ (getStoredRefreshToken s.storage = some rt →
        (authStoreRefreshToken now s).2.storage.refreshToken
            = s.storage.refreshToken
        ∧ (authStoreRefreshToken now s).2.storage.accessToken
            = some ("mock-jwt-token-" ++ toString now)
        ∧ (authStoreRefreshToken now s).2.storage.tokenExpiry
            = some (now + 3600 * 1000))
    ∧ (getStoredRefreshToken s.storage = none →
        (authStoreRefreshToken now s).2.storage = Storage.empty) := by
  refine ⟨rfl, rfl, rfl, rfl, rfl, ?_, ?_, ?_, ?_⟩
  · intro ha hrt
    simp [authServiceRefreshToken, hrt, ha, storeTokens]
  · intro hrt
    simp [authServiceRefreshToken, hrt, clearTokens, Storage.empty]
  · intro h
    simp [authStoreRefreshToken, h]
  · intro h
    simp [authStoreRefreshToken, h, logout, clearTokens, Storage.empty]

theorem c7_witness :
    (getStoredRefreshToken ⟨some "a0", some "r0", some 99⟩ = some "r0")
    ∧ (authServiceRefreshToken (.ok "a1" "r1" 3600) 5
        ⟨some "a0", some "r0", some 99⟩).2.1
      = ⟨some "a1", some "r1", some (5 + 3600 * 1000)⟩
    ∧ (authStoreRefreshToken 5 exGuardState).2.storage.accessToken
        = some ("mock-jwt-token-" ++ toString 5)
    ∧ (authStoreRefreshToken 5
        ⟨⟨some "a0", some "", some 99⟩, false, true, some "a0", 0, 0,
          none⟩).2.storage = Storage.empty :=
  ⟨by decide,
   (c7_atomic_writes_except_mock "a1" "r1" 3600 5 500
      ⟨some "a0", some "r0", some 99⟩ exGuardState "r0").2.2.2.2.2.1
      (by decide) (by decide),
   ((c7_atomic_writes_except_mock "a1" "r1" 3600 5 500
      ⟨some "a0", some "r0", some 99⟩ exGuardState "r0").2.2.2.2.2.2.2.1
      (by decide)).2.1,
   (c7_atomic_writes_except_mock "a1" "r1" 3600 5 500
      ⟨some "a0", some "r0", some 99⟩
      ⟨⟨some "a0", some "", some 99⟩, false, true, some "a0", 0, 0, none⟩
      "r0").2.2.2.2.2.2.2.2 (by decide)⟩

/-- C3: on a 401 for a request outside the auth endpoints whose _retry flag is unset, the
interceptor issues exactly one refresh call; on refresh success it replays the
original request exactly once with Authorization set to the new access token
(resolving with that replay when it succeeds); and when the replay itself comes
back 401 (or any error), the inner interceptor sees _retry already set, performs
no further refresh or replay, and the replay's failure propagates. -/
theorem c3_interceptor_single_retry (u : String) (h0 : Option String)
    (a r rt : String) (e now status2 : Nat) (st : InterceptState)
    (hu : urlIncludesAuth u = false) (ha : a ≠ "")
    (hrt : getStoredRefreshToken st.storage = some rt) :
    (handleResponseError 2 ⟨u, false, h0⟩ 401 (.ok a r e) none now st).1
        = .resolved ⟨u, true, some ("Bearer " ++ a)⟩
    ∧ (handleResponseError 2 ⟨u, false, h0⟩ 401 (.ok a r e) none now st).2.refreshCalls
        = st.refreshCalls + 1
    ∧ (handleResponseError 2 ⟨u, false, h0⟩ 401 (.ok a r e) none now st).2.replayAuthHeaders
        = st.replayAuthHeaders ++ [some ("Bearer " ++ a)]
    ∧ (handleResponseError 2 ⟨u, false, h0⟩ 401 (.ok a r e) (some status2) now st).1
        = .rejected status2
    ∧ (handleResponseError 2 ⟨u, false, h0⟩ 401 (.ok a r e) (some status2) now st).2.refreshCalls
        = st.refreshCalls + 1
    ∧ (handleResponseError 2 ⟨u, false, h0⟩ 401 (.ok a r e) (some status2) now st).2.replayAuthHeaders
        = st.replayAuthHeaders ++ [some ("Bearer " ++ a)] := by
  obtain ⟨stg, ev, rc, rh⟩ := st
  simp_all [handleResponseError]

theorem c3_witness :
    (handleResponseError 2 ⟨"/api/users", false, some "Bearer a0"⟩ 401
        (.ok "a1" "r1" 3600) (some 401) 5
        ⟨⟨some "a0", some "r0", some 99⟩, 0, 0, []⟩).1
      = InterceptResult.rejected 401
    ∧ (handleResponseError 2 ⟨"/api/users", false, some "Bearer a0"⟩ 401
        (.ok "a1" "r1" 3600) (some 401) 5
        ⟨⟨some "a0", some "r0", some 99⟩, 0, 0, []⟩).2.refreshCalls = 0 + 1
    ∧ (handleResponseError 2 ⟨"/api/users", false, some "Bearer a0"⟩ 401
        (.ok "a1" "r1" 3600) (some 401) 5
        ⟨⟨some "a0", some "r0", some 99⟩, 0, 0, []⟩).2.replayAuthHeaders
      = [] ++ [some ("Bearer " ++ "a1")] :=
  ⟨(c3_interceptor_single_retry "/api/users" (some "Bearer a0") "a1" "r1" "r0"
      3600 5 401 ⟨⟨some "a0", some "r0", some 99⟩, 0, 0, []⟩
      (by decide) (by decide) (by decide)).2.2.2.1,
   (c3_interceptor_single_retry "/api/users" (some "Bearer a0") "a1" "r1" "r0"
      3600 5 401 ⟨⟨some "a0", some "r0", some 99⟩, 0, 0, []⟩
      (by decide) (by decide) (by decide)).2.2.2.2.1,
   (c3_interceptor_single_retry "/api/users" (some "Bearer a0") "a1" "r1" "r0"
      3600 5 401 ⟨⟨some "a0", some "r0", some 99⟩, 0, 0, []⟩
      (by decide) (by decide) (by decide)).2.2.2.2.2⟩
